import Mathlib

/-!
# Login page of the authentication front-end

A shallow embedding of `src/login/LoginPage.jsx`: the component state
(`formFields`, `errors`, `errorCode`), the event handlers (`handleSubmit`,
`handleOnChange`, `handleOnFocus`), the two `useEffect` updates of `errorCode`,
and the branch structure of the render.

Conventions of the embedding.

* A JavaScript string is a Lean `String`; `s.length` of JavaScript counts UTF-16
  code units and is `jsLength`.
* A JavaScript value used as a condition is truthy when it is a non-empty
  string (`truthy`), and `null`/`undefined`/`''` are falsy (`truthyOpt`).
* `formFields` and `errors` are the two-key records of `defaultProps`
  (`emailOrUsername`, `password`), both holding strings; the only writers are
  the handlers of the two inputs named `emailOrUsername` and `password`.
* An object with arbitrary keys (`queryParams`, the login payload, an error
  context) is a list of key/value writes, newest first; reading a key returns
  the newest write, so the spread `{ ...a, ...b }` is `b ++ a`.
* A handler runs against the state of the latest render and returns the next
  state together with the calls it made on props and on the event.
* `errorCode.count` is a natural number: the counter starts at `0` and only
  ever grows by `1`, a range in which JavaScript numbers are exact.
-/

namespace LoginPage

/-! ## JavaScript values -/

/-- Number of UTF-16 code units of one character. -/
def utf16Units (c : Char) : Nat :=
  if c.toNat < 0x10000 then 1 else 2

/-- The `.length` of a JavaScript string: its number of UTF-16 code units. -/
def jsLength (s : String) : Nat :=
  (s.data.map utf16Units).sum

/-- Truthiness of a JavaScript string: every string but `''`. -/
def truthy (s : String) : Bool :=
  s != ""

/-- Truthiness of a value that is a string, `null` or `undefined`. -/
def truthyOpt : Option String → Bool
  | none => false
  | some s => truthy s

/-- An object with arbitrary string keys, as its list of writes, newest first. -/
abbrev Obj (V : Type) := List (String × V)

namespace Obj

/-- Property read `o[k]`; `none` is `undefined`. -/
def get {V : Type} (o : Obj V) (k : String) : Option V :=
  (o.find? (fun kv => kv.1 == k)).map Prod.snd

/-- Spread `{ ...base, ...over }`: the keys of `over` shadow those of `base`. -/
def spread {V : Type} (base over : Obj V) : Obj V :=
  over ++ base

end Obj

/-- An opaque context value: a string, or a nested object of such values. -/
inductive JSVal where
  | str (s : String)
  | obj (fields : List (String × JSVal))

/-! ## Component state -/

/-- The names of the two inputs of the form. -/
inductive Field where
  | emailOrUsername
  | password
deriving DecidableEq, Repr

/-- The record `{ emailOrUsername, password }` used for field values and for
field error messages. -/
structure Fields where
  emailOrUsername : String
  password : String
deriving DecidableEq, Repr

namespace Fields

/-- Computed-key read `o[name]`. -/
def get (o : Fields) : Field → String
  | .emailOrUsername => o.emailOrUsername
  | .password => o.password

/-- Computed-key update `{ ...o, [name]: value }`. -/
def set (o : Fields) (name : Field) (value : String) : Fields :=
  match name with
  | .emailOrUsername => { o with emailOrUsername := value }
  | .password => { o with password := value }

end Fields

/-- The `errorCode` state `{ type, count, context }`. -/
structure ErrorCode where
  type : String
  count : Nat
  context : Obj JSVal

/-- The three `useState` cells of the component. -/
structure State where
  formFields : Fields
  errorCode : ErrorCode
  errors : Fields

/-- The initial state of the component for the given `backedUpFormData`. -/
def State.init (backedUpFormFields backedUpErrors : Fields) : State :=
  { formFields := backedUpFormFields
    errorCode := { type := "", count := 0, context := [] }
    errors := backedUpErrors }

/-- A call made by a handler. -/
inductive Call where
  | preventDefault
  | dismissPasswordResetBanner
  | loginRequest (payload : Obj String)

/-- The payload of a call of `loginRequest`, if it is one. -/
def Call.loginPayload : Call → Option (Obj String)
  | .loginRequest p => some p
  | _ => none

/-- The payloads of the `loginRequest` calls among `calls`, in order. -/
def loginRequests (calls : List Call) : List (Obj String) :=
  calls.filterMap Call.loginPayload

/-- The outcome of a handler: the next state and the calls made. -/
structure Outcome where
  state : State
  calls : List Call

/-! ## Validation and submission -/

/-- The message set for an empty `emailOrUsername`. -/
def msgEmailRequired : String := "Vui lòng nhập email hoặc số điện thoại"

/-- The message set for an `emailOrUsername` of length below 2. -/
def msgEmailTooShort : String := "Email hoặc số điện thoại phải có ít nhất 2 ký tự"

/-- The message set for an empty `password`. -/
def msgPasswordRequired : String := "Vui lòng nhập mật khẩu"

/-- `validateFormFields(payload)` (lines 123-137), closing over `errors`. -/
def validateFormFields (errors : Fields) (payload : Fields) : Fields :=
  let fieldErrors := errors
  let fieldErrors :=
    if payload.emailOrUsername == "" then
      { fieldErrors with emailOrUsername := msgEmailRequired }
    else if jsLength payload.emailOrUsername < 2 then
      { fieldErrors with emailOrUsername := msgEmailTooShort }
    else fieldErrors
  let fieldErrors :=
    if payload.password == "" then
      { fieldErrors with password := msgPasswordRequired }
    else fieldErrors
  fieldErrors

/-- `handleSubmit(event)` (lines 139-160). `INVALID_FORM` is the constant of
`./data/constants` and `queryParams` the memoised result of
`getAllPossibleQueryParams()`, both defined outside this file of the source. -/
def handleSubmit (INVALID_FORM : String) (queryParams : Obj String)
    (showResetPasswordSuccessBanner : Bool) (st : State) : Outcome :=
  let calls := [Call.preventDefault]
  let calls :=
    if showResetPasswordSuccessBanner then calls ++ [Call.dismissPasswordResetBanner]
    else calls
  let formData := st.formFields
  let validationErrors := validateFormFields st.errors formData
  if truthy validationErrors.emailOrUsername || truthy validationErrors.password then
    { state :=
        { st with
          errors := validationErrors
          errorCode :=
            { type := INVALID_FORM, count := st.errorCode.count + 1, context := [] } }
      calls := calls }
  else
    let payload : Obj String :=
      Obj.spread
        [("email_or_username", formData.emailOrUsername), ("password", formData.password)]
        queryParams
    { state := st, calls := calls ++ [Call.loginRequest payload] }

/-- `handleOnChange(event)` (lines 162-165) for `event.target = { name, value }`. -/
def handleOnChange (name : Field) (value : String) (st : State) : State :=
  { st with formFields := st.formFields.set name value }

/-- `handleOnFocus(event)` (lines 167-170) for `event.target = { name }`. -/
def handleOnFocus (name : Field) (st : State) : State :=
  { st with errors := st.errors.set name "" }

/-! ## Updates of `errorCode` on arrival of an error -/

/-- The effect of lines 101-109, run with the props `loginErrorCode` (a string
or `null`) and `loginErrorContext`: the `errorCode` it leaves. -/
def loginErrorEffect (loginErrorCode : Option String) (loginErrorContext : Obj JSVal)
    (prevState : ErrorCode) : ErrorCode :=
  match loginErrorCode with
  | some code =>
    if truthy code then
      { type := code
        count := prevState.count + 1
        context := Obj.spread [] loginErrorContext }
    else prevState
  | none => prevState

/-- The effect of lines 111-121, run with `thirdPartyAuthContext.errorMessage`.
`TPA_AUTHENTICATION_FAILURE` is the constant of `./data/constants`. -/
def thirdPartyErrorEffect (TPA_AUTHENTICATION_FAILURE : String)
    (thirdPartyErrorMessage : Option String) (prevState : ErrorCode) : ErrorCode :=
  match thirdPartyErrorMessage with
  | some msg =>
    if truthy msg then
      { type := TPA_AUTHENTICATION_FAILURE
        count := prevState.count + 1
        context := [("errorMessage", JSVal.str msg)] }
    else prevState
  | none => prevState

/-! ## Render -/

/-- An identity provider of the third-party auth context. -/
structure Provider where
  id : String
  name : String
  loginUrl : String
deriving DecidableEq, Repr

/-- The result `{ provider, skipHintedLogin }` of `getTpaProvider`. -/
structure TpaProvider where
  provider : Option Provider
  skipHintedLogin : Bool
deriving DecidableEq, Repr

/-- The `loginResult` prop `{ success, redirectUrl }`; an absent key is `none`. -/
structure LoginResult where
  success : Option Bool
  redirectUrl : Option String
deriving DecidableEq, Repr

/-- The props and environment read by the render (lines 46-76 and 172). -/
structure Props where
  tpaHint : Option String
  providers : List Provider
  secondaryProviders : List Provider
  currentProvider : Option String
  finishAuthUrl : Option String
  platformName : Option String
  thirdPartyAuthApiStatus : String
  institutionLogin : Bool
  loginResult : LoginResult
  showResetPasswordSuccessBanner : Bool
  submitState : String
  activationMsgType : Option String
deriving DecidableEq, Repr

/-- The props of the `RedirectLogistration` element (lines 203-207). -/
structure RedirectProps where
  success : Option Bool
  redirectUrl : Option String
  finishAuthUrl : Option String
deriving DecidableEq, Repr

/-- The credential page returned at lines 198-303, by the props of its
children that depend on props or state. -/
structure CredentialPage where
  redirectLogistration : RedirectProps
  failureErrorCode : String
  failureErrorCount : Nat
  failureContext : Obj JSVal
  alertCurrentProvider : Option String
  alertPlatformName : Option String
  activationMessageType : Option String
  resetPasswordSuccess : Bool
  emailOrUsernameValue : String
  emailOrUsernameError : Option String
  passwordValue : String
  passwordError : Option String
  submitState : String

/-- What the component function returns. `InstitutionLogistration` also gets a
`headingTitle`, a fixed message of the catalogue. -/
inductive Element where
  | skeleton (height : Nat)
  | null
  | enterpriseSSO (provider : Provider)
  | institutionLogistration (secondaryProviders : List Provider)
  | credentialPage (page : CredentialPage)

/-- The props of the `RedirectLogistration` element of the output, if the output
has one. -/
def Element.redirectLogistration : Element → Option RedirectProps
  | .credentialPage page => some page.redirectLogistration
  | _ => none

/-- The result of one render: the element returned and the value assigned to
`window.location.href`, if one was. -/
structure Rendered where
  element : Element
  locationHref : Option String

/-- The inline message `{errors.f && <div>{errors.f}</div>}`. -/
def inlineError (msg : String) : Option String :=
  if truthy msg then some msg else none

/-- The render below the SSO-hint block (lines 189-303). -/
def renderUnhinted (props : Props) (st : State) : Rendered :=
  if props.institutionLogin then
    { element := .institutionLogistration props.secondaryProviders, locationHref := none }
  else
    { element := .credentialPage
        { redirectLogistration :=
            { success := props.loginResult.success
              redirectUrl := props.loginResult.redirectUrl
              finishAuthUrl := props.finishAuthUrl }
          failureErrorCode := st.errorCode.type
          failureErrorCount := st.errorCode.count
          failureContext := st.errorCode.context
          alertCurrentProvider := props.currentProvider
          alertPlatformName := props.platformName
          activationMessageType := props.activationMsgType
          resetPasswordSuccess := props.showResetPasswordSuccessBanner
          emailOrUsernameValue := st.formFields.emailOrUsername
          emailOrUsernameError := inlineError st.errors.emailOrUsername
          passwordValue := st.formFields.password
          passwordError := inlineError st.errors.password
          submitState := props.submitState }
      locationHref := none }

/-- The render of `LoginPage` (lines 172-303). `getTpaProvider` is the helper of
`../data/utils`, `PENDING_STATE` the constant of `../data/constants` and
`LMS_BASE_URL` the value of `getConfig().LMS_BASE_URL`. When `skipHintedLogin`
is set without a provider, `provider.loginUrl` throws: the result is `none`. -/
def render (getTpaProvider : Option String → List Provider → List Provider → TpaProvider)
    (PENDING_STATE LMS_BASE_URL : String) (props : Props) (st : State) : Option Rendered :=
  let tpa := getTpaProvider props.tpaHint props.providers props.secondaryProviders
  if truthyOpt props.tpaHint then
    if props.thirdPartyAuthApiStatus == PENDING_STATE then
      some { element := .skeleton 36, locationHref := none }
    else if tpa.skipHintedLogin then
      match tpa.provider with
      | some provider =>
        some { element := .null, locationHref := some (LMS_BASE_URL ++ provider.loginUrl) }
      | none => none
    else
      match tpa.provider with
      | some provider => some { element := .enterpriseSSO provider, locationHref := none }
      | none => some (renderUnhinted props st)
  else
    some (renderUnhinted props st)

/-- Modelled from the spec: `getTpaProvider` of `../data/utils`, which is not
among the source files. The spec (4.2, 8) says the hinted login is skipped when
the SSO hint names a single matching provider and there are no secondary
providers; the provider returned is the first one the hint names, searched
among the providers and then the secondary providers. -/
def getTpaProvider (tpaHint : Option String) (providers secondaryProviders : List Provider) :
    TpaProvider :=
  let isHinted := fun (p : Provider) => some p.id == tpaHint
  { provider := (providers ++ secondaryProviders).find? isHinted
    skipHintedLogin :=
      (providers.filter isHinted).length == 1 && secondaryProviders.isEmpty }

/-! ## Concrete inputs -/

/-- A state with both fields empty and no stored error. -/
def emptyState : State :=
  State.init { emailOrUsername := "", password := "" } { emailOrUsername := "", password := "" }

/-- A state with the given field values and no stored error. -/
def stateOf (emailOrUsername password : String) : State :=
  State.init { emailOrUsername := emailOrUsername, password := password }
    { emailOrUsername := "", password := "" }

/-- A state with valid field values and an error message left on `password`. -/
def staleState : State :=
  State.init { emailOrUsername := "learner", password := "secret" }
    { emailOrUsername := "", password := msgPasswordRequired }

/-- The validity of a value typed into a field, as the form requires it: not
empty, and for `emailOrUsername` of length at least 2. -/
def isValidValue (name : Field) (value : String) : Prop :=
  match name with
  | .emailOrUsername => value ≠ "" ∧ 2 ≤ jsLength value
  | .password => value ≠ ""

/-- An identity provider named by the hint `saml-campus`. -/
def campusProvider : Provider :=
  { id := "saml-campus", name := "Campus", loginUrl := "/auth/login/tpa-saml/?idp=campus" }

/-- Props of a first render: no hint, no provider, the context fetched, nothing
submitted yet. -/
def plainProps : Props :=
  { tpaHint := none
    providers := []
    secondaryProviders := []
    currentProvider := none
    finishAuthUrl := none
    platformName := some "Chalix"
    thirdPartyAuthApiStatus := "complete"
    institutionLogin := false
    loginResult := { success := none, redirectUrl := none }
    showResetPasswordSuccessBanner := false
    submitState := "default"
    activationMsgType := none }

/-- Props with the hint `saml-campus` naming the only provider. -/
def hintedProps (thirdPartyAuthApiStatus : String) : Props :=
  { plainProps with
    tpaHint := some "saml-campus"
    providers := [campusProvider]
    thirdPartyAuthApiStatus := thirdPartyAuthApiStatus }

/-- Props with `institutionLogin` set and the hint `saml-campus`, during the
fetch of the context. -/
def institutionPendingProps : Props :=
  { plainProps with
    tpaHint := some "saml-campus"
    thirdPartyAuthApiStatus := "pending"
    institutionLogin := true }

/-- Props with `institutionLogin` set and no hint. -/
def institutionProps : Props :=
  { plainProps with institutionLogin := true }

/-- Props of a successful login, with the given `institutionLogin` flag. -/
def loggedInProps (institutionLogin : Bool) : Props :=
  { plainProps with
    institutionLogin := institutionLogin
    finishAuthUrl := some "/auth/complete"
    loginResult := { success := some true, redirectUrl := some "/dashboard" } }

/-! ## Basic facts -/

theorem truthy_eq_true_iff (s : String) : truthy s = true ↔ s ≠ "" := by
  simp [truthy]

theorem truthy_eq_false_iff (s : String) : truthy s = false ↔ s = "" := by
  simp [truthy]

theorem msgEmailRequired_ne_empty : msgEmailRequired ≠ "" := by decide

theorem msgEmailTooShort_ne_empty : msgEmailTooShort ≠ "" := by decide

theorem msgPasswordRequired_ne_empty : msgPasswordRequired ≠ "" := by decide

theorem msgEmailTooShort_ne_required : msgEmailTooShort ≠ msgEmailRequired := by decide

theorem jsLength_empty : jsLength "" = 0 := by decide

theorem validate_email_empty (errors payload : Fields) (h : payload.emailOrUsername = "") :
    (validateFormFields errors payload).emailOrUsername = msgEmailRequired := by
  unfold validateFormFields
  simp only [h, beq_self_eq_true, if_true]
  split <;> rfl

theorem validate_email_short (errors payload : Fields) (h : payload.emailOrUsername ≠ "")
    (hlen : jsLength payload.emailOrUsername < 2) :
    (validateFormFields errors payload).emailOrUsername = msgEmailTooShort := by
  unfold validateFormFields
  have hb : (payload.emailOrUsername == "") = false := by simpa using h
  simp only [hb, hlen, if_true, Bool.false_eq_true, if_false]
  split <;> rfl

theorem validate_email_ok (errors payload : Fields) (hlen : 2 ≤ jsLength payload.emailOrUsername) :
    (validateFormFields errors payload).emailOrUsername = errors.emailOrUsername := by
  unfold validateFormFields
  have h : payload.emailOrUsername ≠ "" := by
    intro h0
    rw [h0, jsLength_empty] at hlen
    omega
  have hb : (payload.emailOrUsername == "") = false := by simpa using h
  have hl : ¬ jsLength payload.emailOrUsername < 2 := by omega
  simp only [hb, hl, Bool.false_eq_true, if_false]
  split <;> rfl

theorem validate_password_empty (errors payload : Fields) (h : payload.password = "") :
    (validateFormFields errors payload).password = msgPasswordRequired := by
  unfold validateFormFields
  simp only [h, beq_self_eq_true, if_true]

theorem validate_password_ok (errors payload : Fields) (h : payload.password ≠ "") :
    (validateFormFields errors payload).password = errors.password := by
  unfold validateFormFields
  have hb : (payload.password == "") = false := by simpa using h
  simp only [hb, Bool.false_eq_true, if_false]
  split
  · rfl
  · split <;> rfl

theorem handleSubmit_of_errors (INVALID_FORM : String) (queryParams : Obj String)
    (banner : Bool) (st : State)
    (h : (validateFormFields st.errors st.formFields).emailOrUsername ≠ "" ∨
      (validateFormFields st.errors st.formFields).password ≠ "") :
    (handleSubmit INVALID_FORM queryParams banner st).state =
        { st with
          errors := validateFormFields st.errors st.formFields
          errorCode :=
            { type := INVALID_FORM, count := st.errorCode.count + 1, context := [] } } ∧
      loginRequests (handleSubmit INVALID_FORM queryParams banner st).calls = [] := by
  have hc : (truthy (validateFormFields st.errors st.formFields).emailOrUsername ||
      truthy (validateFormFields st.errors st.formFields).password) = true := by
    rw [Bool.or_eq_true, truthy_eq_true_iff, truthy_eq_true_iff]
    exact h
  unfold handleSubmit
  simp only [hc, if_true]
  refine ⟨trivial, ?_⟩
  cases banner <;> rfl

theorem handleSubmit_of_no_errors (INVALID_FORM : String) (queryParams : Obj String)
    (banner : Bool) (st : State)
    (he : (validateFormFields st.errors st.formFields).emailOrUsername = "")
    (hp : (validateFormFields st.errors st.formFields).password = "") :
    (handleSubmit INVALID_FORM queryParams banner st).state = st ∧
      loginRequests (handleSubmit INVALID_FORM queryParams banner st).calls =
        [Obj.spread
          [("email_or_username", st.formFields.emailOrUsername),
            ("password", st.formFields.password)]
          queryParams] := by
  have hc : (truthy (validateFormFields st.errors st.formFields).emailOrUsername ||
      truthy (validateFormFields st.errors st.formFields).password) = false := by
    rw [Bool.or_eq_false_iff, truthy_eq_false_iff, truthy_eq_false_iff]
    exact ⟨he, hp⟩
  unfold handleSubmit
  simp only [hc, Bool.false_eq_true, if_false]
  refine ⟨trivial, ?_⟩
  cases banner <;> rfl

/-! ## Local validation on submit -/

/-- C1: when both `emailOrUsername` and `password` are the empty string,
`handleSubmit` stores the two 'required' messages of `validateFormFields`, both
non-empty, in `errors.emailOrUsername` and `errors.password`, and makes no call
of `loginRequest`. -/
theorem handleSubmit_empty_fields (INVALID_FORM : String) (queryParams : Obj String)
    (banner : Bool) (st : State)
    (he : st.formFields.emailOrUsername = "") (hp : st.formFields.password = "") :
    (handleSubmit INVALID_FORM queryParams banner st).state.errors.emailOrUsername
        = msgEmailRequired ∧
      (handleSubmit INVALID_FORM queryParams banner st).state.errors.emailOrUsername ≠ "" ∧
      (handleSubmit INVALID_FORM queryParams banner st).state.errors.password
        = msgPasswordRequired ∧
      (handleSubmit INVALID_FORM queryParams banner st).state.errors.password ≠ "" ∧
      loginRequests (handleSubmit INVALID_FORM queryParams banner st).calls = [] := by
  have hve := validate_email_empty st.errors st.formFields he
  have hvp := validate_password_empty st.errors st.formFields hp
  obtain ⟨hs, hcalls⟩ := handleSubmit_of_errors INVALID_FORM queryParams banner st
    (Or.inl (by rw [hve]; exact msgEmailRequired_ne_empty))
  rw [hs]
  exact ⟨hve, by rw [hve]; exact msgEmailRequired_ne_empty, hvp,
    by rw [hvp]; exact msgPasswordRequired_ne_empty, hcalls⟩

theorem handleSubmit_empty_fields_witness :
    emptyState.formFields.emailOrUsername = "" ∧ emptyState.formFields.password = "" ∧
    (handleSubmit "invalid-form" [("next", "/dashboard")] false emptyState).state.errors.emailOrUsername
        = msgEmailRequired ∧
      (handleSubmit "invalid-form" [("next", "/dashboard")] false emptyState).state.errors.emailOrUsername
        ≠ "" ∧
      (handleSubmit "invalid-form" [("next", "/dashboard")] false emptyState).state.errors.password
        = msgPasswordRequired ∧
      (handleSubmit "invalid-form" [("next", "/dashboard")] false emptyState).state.errors.password
        ≠ "" ∧
      loginRequests (handleSubmit "invalid-form" [("next", "/dashboard")] false emptyState).calls
        = [] :=
  ⟨rfl, rfl,
    handleSubmit_empty_fields "invalid-form" [("next", "/dashboard")] false emptyState rfl rfl⟩

/-- C2: when local validation fails (`emailOrUsername` empty or of length below
2, or `password` empty), `handleSubmit` leaves a non-empty error on each
offending field, replaces `errorCode` by
`{ type: INVALID_FORM, count: previous count + 1, context: {} }`, leaves
`formFields` unchanged and makes no call of `loginRequest`. -/
theorem handleSubmit_validation_failure (INVALID_FORM : String) (queryParams : Obj String)
    (banner : Bool) (st : State)
    (h : st.formFields.emailOrUsername = "" ∨ jsLength st.formFields.emailOrUsername < 2 ∨
      st.formFields.password = "") :
    ((st.formFields.emailOrUsername = "" ∨ jsLength st.formFields.emailOrUsername < 2) →
        (handleSubmit INVALID_FORM queryParams banner st).state.errors.emailOrUsername ≠ "") ∧
      (st.formFields.password = "" →
        (handleSubmit INVALID_FORM queryParams banner st).state.errors.password ≠ "") ∧
      (handleSubmit INVALID_FORM queryParams banner st).state.errorCode.type = INVALID_FORM ∧
      (handleSubmit INVALID_FORM queryParams banner st).state.errorCode.count
        = st.errorCode.count + 1 ∧
      (handleSubmit INVALID_FORM queryParams banner st).state.errorCode.context = [] ∧
      (handleSubmit INVALID_FORM queryParams banner st).state.formFields = st.formFields ∧
      loginRequests (handleSubmit INVALID_FORM queryParams banner st).calls = [] := by
  have hemail : (st.formFields.emailOrUsername = "" ∨ jsLength st.formFields.emailOrUsername < 2) →
      (validateFormFields st.errors st.formFields).emailOrUsername ≠ "" := by
    intro h1
    by_cases h0 : st.formFields.emailOrUsername = ""
    · rw [validate_email_empty _ _ h0]; exact msgEmailRequired_ne_empty
    · rw [validate_email_short _ _ h0 (h1.resolve_left h0)]; exact msgEmailTooShort_ne_empty
  have hpass : st.formFields.password = "" →
      (validateFormFields st.errors st.formFields).password ≠ "" := by
    intro h0
    rw [validate_password_empty _ _ h0]; exact msgPasswordRequired_ne_empty
  have herr : (validateFormFields st.errors st.formFields).emailOrUsername ≠ "" ∨
      (validateFormFields st.errors st.formFields).password ≠ "" := by
    rcases h with h | h | h
    · exact Or.inl (hemail (Or.inl h))
    · exact Or.inl (hemail (Or.inr h))
    · exact Or.inr (hpass h)
  obtain ⟨hs, hcalls⟩ := handleSubmit_of_errors INVALID_FORM queryParams banner st herr
  rw [hs]
  exact ⟨hemail, hpass, rfl, rfl, rfl, rfl, hcalls⟩

theorem handleSubmit_validation_failure_witness :
    ((stateOf "a" "secret").formFields.emailOrUsername = "" ∨
        jsLength (stateOf "a" "secret").formFields.emailOrUsername < 2 ∨
        (stateOf "a" "secret").formFields.password = "") ∧
    (((stateOf "a" "secret").formFields.emailOrUsername = "" ∨
          jsLength (stateOf "a" "secret").formFields.emailOrUsername < 2) →
        (handleSubmit "invalid-form" [] true (stateOf "a" "secret")).state.errors.emailOrUsername
          ≠ "") ∧
      ((stateOf "a" "secret").formFields.password = "" →
        (handleSubmit "invalid-form" [] true (stateOf "a" "secret")).state.errors.password ≠ "") ∧
      (handleSubmit "invalid-form" [] true (stateOf "a" "secret")).state.errorCode.type
        = "invalid-form" ∧
      (handleSubmit "invalid-form" [] true (stateOf "a" "secret")).state.errorCode.count
        = (stateOf "a" "secret").errorCode.count + 1 ∧
      (handleSubmit "invalid-form" [] true (stateOf "a" "secret")).state.errorCode.context = [] ∧
      (handleSubmit "invalid-form" [] true (stateOf "a" "secret")).state.formFields
        = (stateOf "a" "secret").formFields ∧
      loginRequests (handleSubmit "invalid-form" [] true (stateOf "a" "secret")).calls = [] :=
  ⟨Or.inr (Or.inl (by decide)),
    handleSubmit_validation_failure "invalid-form" [] true (stateOf "a" "secret")
      (Or.inr (Or.inl (by decide)))⟩

/-- C3, counterexample: the empty username is shorter than 2 characters, and
both `validateFormFields` and `handleSubmit` give it the 'required' message,
not the length-specific one. -/
theorem short_username_message_counterexample :
    jsLength emptyState.formFields.emailOrUsername < 2 ∧
      (validateFormFields emptyState.errors emptyState.formFields).emailOrUsername
        = msgEmailRequired ∧
      (validateFormFields emptyState.errors emptyState.formFields).emailOrUsername
        ≠ msgEmailTooShort ∧
      (handleSubmit "invalid-form" [] false emptyState).state.errors.emailOrUsername
        ≠ msgEmailTooShort := by
  decide

/-- C3, amended: for a non-empty `emailOrUsername` of length below 2,
`validateFormFields` and `handleSubmit` set `errors.emailOrUsername` to the
length-specific message, which differs from the 'required' message. -/
theorem short_username_message (INVALID_FORM : String) (queryParams : Obj String)
    (banner : Bool) (st : State)
    (hne : st.formFields.emailOrUsername ≠ "")
    (hlen : jsLength st.formFields.emailOrUsername < 2) :
    (validateFormFields st.errors st.formFields).emailOrUsername = msgEmailTooShort ∧
      (handleSubmit INVALID_FORM queryParams banner st).state.errors.emailOrUsername
        = msgEmailTooShort ∧
      msgEmailTooShort = "Email hoặc số điện thoại phải có ít nhất 2 ký tự" ∧
      msgEmailTooShort ≠ msgEmailRequired := by
  have hv := validate_email_short st.errors st.formFields hne hlen
  obtain ⟨hs, _⟩ := handleSubmit_of_errors INVALID_FORM queryParams banner st
    (Or.inl (by rw [hv]; exact msgEmailTooShort_ne_empty))
  rw [hs]
  exact ⟨hv, hv, rfl, msgEmailTooShort_ne_required⟩

theorem short_username_message_witness :
    (stateOf "a" "secret").formFields.emailOrUsername ≠ "" ∧
      jsLength (stateOf "a" "secret").formFields.emailOrUsername < 2 ∧
      (validateFormFields (stateOf "a" "secret").errors (stateOf "a" "secret").formFields).emailOrUsername
        = msgEmailTooShort ∧
      (handleSubmit "invalid-form" [] false (stateOf "a" "secret")).state.errors.emailOrUsername
        = msgEmailTooShort ∧
      msgEmailTooShort = "Email hoặc số điện thoại phải có ít nhất 2 ký tự" ∧
      msgEmailTooShort ≠ msgEmailRequired :=
  ⟨by decide, by decide,
    short_username_message "invalid-form" [] false (stateOf "a" "secret") (by decide) (by decide)⟩

/-! ## Submission to the backend -/

theorem Obj.get_spread {V : Type} (base over : Obj V) (k : String) :
    Obj.get (Obj.spread base over) k = (Obj.get over k).or (Obj.get base k) := by
  unfold Obj.get Obj.spread
  rw [List.find?_append]
  cases List.find? (fun kv => kv.1 == k) over <;> rfl

/-- C4, counterexample: a query parameter named `password` takes the place of
the typed password in the payload given to `loginRequest`. -/
theorem handleSubmit_payload_counterexample :
    (validateFormFields (stateOf "learner" "secret").errors
        (stateOf "learner" "secret").formFields).emailOrUsername = "" ∧
      (validateFormFields (stateOf "learner" "secret").errors
        (stateOf "learner" "secret").formFields).password = "" ∧
      ∃ payload,
        loginRequests
            (handleSubmit "invalid-form" [("password", "from-url")] false
              (stateOf "learner" "secret")).calls = [payload] ∧
          Obj.get payload "password" = some "from-url" ∧
          Obj.get payload "password" ≠ some (stateOf "learner" "secret").formFields.password :=
  ⟨by decide, by decide, _, rfl, by decide, by decide⟩

/-- C4, amended: when `validateFormFields` reports no error and the query
parameters have no key `email_or_username` or `password`, `handleSubmit` calls
`loginRequest` exactly once, with a payload whose `email_or_username` and
`password` are those of `formFields` and which holds every query parameter
under its own key with its value. -/
theorem handleSubmit_payload (INVALID_FORM : String) (queryParams : Obj String)
    (banner : Bool) (st : State)
    (he : (validateFormFields st.errors st.formFields).emailOrUsername = "")
    (hp : (validateFormFields st.errors st.formFields).password = "")
    (hqe : Obj.get queryParams "email_or_username" = none)
    (hqp : Obj.get queryParams "password" = none) :
    ∃ payload,
      loginRequests (handleSubmit INVALID_FORM queryParams banner st).calls = [payload] ∧
        Obj.get payload "email_or_username" = some st.formFields.emailOrUsername ∧
        Obj.get payload "password" = some st.formFields.password ∧
        ∀ k v, Obj.get queryParams k = some v → Obj.get payload k = some v := by
  obtain ⟨_, hcalls⟩ := handleSubmit_of_no_errors INVALID_FORM queryParams banner st he hp
  refine ⟨_, hcalls, ?_, ?_, ?_⟩
  · rw [Obj.get_spread, hqe]; rfl
  · rw [Obj.get_spread, hqp]; rfl
  · intro k v hk
    rw [Obj.get_spread, hk]; rfl

theorem handleSubmit_payload_witness :
    (validateFormFields (stateOf "learner" "secret").errors
        (stateOf "learner" "secret").formFields).emailOrUsername = "" ∧
      (validateFormFields (stateOf "learner" "secret").errors
        (stateOf "learner" "secret").formFields).password = "" ∧
      Obj.get [("next", "/dashboard"), ("utm_source", "mail")] "email_or_username" = none ∧
      Obj.get [("next", "/dashboard"), ("utm_source", "mail")] "password" = none ∧
      ∃ payload,
        loginRequests
            (handleSubmit "invalid-form" [("next", "/dashboard"), ("utm_source", "mail")] false
              (stateOf "learner" "secret")).calls = [payload] ∧
          Obj.get payload "email_or_username"
            = some (stateOf "learner" "secret").formFields.emailOrUsername ∧
          Obj.get payload "password" = some (stateOf "learner" "secret").formFields.password ∧
          ∀ k v, Obj.get [("next", "/dashboard"), ("utm_source", "mail")] k = some v →
            Obj.get payload k = some v :=
  ⟨by decide, by decide, by decide, by decide,
    handleSubmit_payload "invalid-form" [("next", "/dashboard"), ("utm_source", "mail")] false
      (stateOf "learner" "secret") (by decide) (by decide) (by decide) (by decide)⟩

/-! ## The error code -/

/-- C5: on arrival of a non-empty backend error kind `k`, the update of
`errorCode` yields `type = k` and `count = count + 1`; when the previous type
is already `k`, the type is unchanged and the counter strictly increases, by
exactly one. -/
theorem loginErrorEffect_counts (prevState : ErrorCode) (k : String)
    (loginErrorContext : Obj JSVal) (hk : k ≠ "") :
    (loginErrorEffect (some k) loginErrorContext prevState).type = k ∧
      (loginErrorEffect (some k) loginErrorContext prevState).count = prevState.count + 1 ∧
      (prevState.type = k →
        (loginErrorEffect (some k) loginErrorContext prevState).type = prevState.type ∧
          prevState.count < (loginErrorEffect (some k) loginErrorContext prevState).count) := by
  have ht : truthy k = true := (truthy_eq_true_iff k).mpr hk
  unfold loginErrorEffect
  simp only [ht, if_true]
  refine ⟨trivial, trivial, ?_⟩
  intro h
  exact ⟨h.symm, Nat.lt_succ_self _⟩

theorem loginErrorEffect_counts_witness :
    "incorrect-email-or-password" ≠ "" ∧
      (loginErrorEffect (some "incorrect-email-or-password") []
          { type := "incorrect-email-or-password", count := 3, context := [] }).type
        = "incorrect-email-or-password" ∧
      (loginErrorEffect (some "incorrect-email-or-password") []
          { type := "incorrect-email-or-password", count := 3, context := [] }).count = 3 + 1 ∧
      ("incorrect-email-or-password" = "incorrect-email-or-password" →
        (loginErrorEffect (some "incorrect-email-or-password") []
            { type := "incorrect-email-or-password", count := 3, context := [] }).type
          = "incorrect-email-or-password" ∧
        3 < (loginErrorEffect (some "incorrect-email-or-password") []
            { type := "incorrect-email-or-password", count := 3, context := [] }).count) :=
  ⟨by decide,
    loginErrorEffect_counts { type := "incorrect-email-or-password", count := 3, context := [] }
      "incorrect-email-or-password" [] (by decide)⟩

/-! ## Field errors across focus, change and submit -/

theorem validate_email_keeps (errors payload : Fields) (h : errors.emailOrUsername ≠ "") :
    (validateFormFields errors payload).emailOrUsername ≠ "" := by
  by_cases h0 : payload.emailOrUsername = ""
  · rw [validate_email_empty _ _ h0]; exact msgEmailRequired_ne_empty
  · by_cases hlen : jsLength payload.emailOrUsername < 2
    · rw [validate_email_short _ _ h0 hlen]; exact msgEmailTooShort_ne_empty
    · rw [validate_email_ok _ _ (by omega)]; exact h

theorem validate_password_keeps (errors payload : Fields) (h : errors.password ≠ "") :
    (validateFormFields errors payload).password ≠ "" := by
  by_cases h0 : payload.password = ""
  · rw [validate_password_empty _ _ h0]; exact msgPasswordRequired_ne_empty
  · rw [validate_password_ok _ _ h0]; exact h

theorem handleSubmit_errors_get (INVALID_FORM : String) (queryParams : Obj String)
    (banner : Bool) (st : State) (name : Field)
    (hst : st.errors.get name = "")
    (hv : (validateFormFields st.errors st.formFields).get name = "") :
    (handleSubmit INVALID_FORM queryParams banner st).state.errors.get name = "" := by
  by_cases herr : (validateFormFields st.errors st.formFields).emailOrUsername ≠ "" ∨
      (validateFormFields st.errors st.formFields).password ≠ ""
  · rw [(handleSubmit_of_errors INVALID_FORM queryParams banner st herr).1]
    exact hv
  · have he : (validateFormFields st.errors st.formFields).emailOrUsername = "" := by
      by_contra hne; exact herr (Or.inl hne)
    have hp : (validateFormFields st.errors st.formFields).password = "" := by
      by_contra hne; exact herr (Or.inr hne)
    rw [(handleSubmit_of_no_errors INVALID_FORM queryParams banner st he hp).1]
    exact hst

/-- C6: for a field `f` of the form, after `handleOnFocus` on `f`, then
`handleOnChange` setting `f` to a valid value, then `handleSubmit`, the
resulting `errors[f]` is empty: no stale message remains for the corrected
field. -/
theorem no_stale_error_after_correction (INVALID_FORM : String) (queryParams : Obj String)
    (banner : Bool) (st : State) (f : Field) (value : String) (hvalid : isValidValue f value) :
    (handleSubmit INVALID_FORM queryParams banner
        (handleOnChange f value (handleOnFocus f st))).state.errors.get f = "" := by
  apply handleSubmit_errors_get
  · cases f <;> rfl
  · cases f with
    | emailOrUsername =>
      show (validateFormFields _ _).emailOrUsername = ""
      rw [validate_email_ok _ _ hvalid.2]
      rfl
    | password =>
      show (validateFormFields _ _).password = ""
      rw [validate_password_ok _ _ (show value ≠ "" from hvalid)]
      rfl

theorem no_stale_error_after_correction_witness :
    isValidValue Field.emailOrUsername "learner" ∧
      (handleSubmit "invalid-form" [] false
          (handleOnChange Field.emailOrUsername "learner"
            (handleOnFocus Field.emailOrUsername
              (handleSubmit "invalid-form" [] false emptyState).state))).state.errors.get
        Field.emailOrUsername = "" :=
  ⟨⟨by decide, by decide⟩,
    no_stale_error_after_correction "invalid-form" [] false
      (handleSubmit "invalid-form" [] false emptyState).state Field.emailOrUsername "learner"
      ⟨by decide, by decide⟩⟩

/-- C10: `validateFormFields` starts from the stored errors and never clears
one: when `errors.emailOrUsername` or `errors.password` is already non-empty,
the result keeps a non-empty error for that field whatever the field values
are, so `handleSubmit` sets `INVALID_FORM`, counts one more error and makes no
call of `loginRequest`, also when both fields hold valid values. -/
theorem stored_error_blocks_submit (INVALID_FORM : String) (queryParams : Obj String)
    (banner : Bool) (st : State)
    (h : st.errors.emailOrUsername ≠ "" ∨ st.errors.password ≠ "") :
    (∀ payload : Fields, st.errors.emailOrUsername ≠ "" →
        (validateFormFields st.errors payload).emailOrUsername ≠ "") ∧
      (∀ payload : Fields, st.errors.password ≠ "" →
        (validateFormFields st.errors payload).password ≠ "") ∧
      (handleSubmit INVALID_FORM queryParams banner st).state.errorCode.type = INVALID_FORM ∧
      (handleSubmit INVALID_FORM queryParams banner st).state.errorCode.count
        = st.errorCode.count + 1 ∧
      loginRequests (handleSubmit INVALID_FORM queryParams banner st).calls = [] := by
  have herr : (validateFormFields st.errors st.formFields).emailOrUsername ≠ "" ∨
      (validateFormFields st.errors st.formFields).password ≠ "" :=
    h.imp (validate_email_keeps _ _) (validate_password_keeps _ _)
  obtain ⟨hs, hcalls⟩ := handleSubmit_of_errors INVALID_FORM queryParams banner st herr
  rw [hs]
  exact ⟨fun payload => validate_email_keeps _ payload,
    fun payload => validate_password_keeps _ payload, rfl, rfl, hcalls⟩

theorem stored_error_blocks_submit_witness :
    (staleState.errors.emailOrUsername ≠ "" ∨ staleState.errors.password ≠ "") ∧
      isValidValue Field.emailOrUsername staleState.formFields.emailOrUsername ∧
      isValidValue Field.password staleState.formFields.password ∧
      (∀ payload : Fields, staleState.errors.emailOrUsername ≠ "" →
        (validateFormFields staleState.errors payload).emailOrUsername ≠ "") ∧
      (∀ payload : Fields, staleState.errors.password ≠ "" →
        (validateFormFields staleState.errors payload).password ≠ "") ∧
      (handleSubmit "invalid-form" [] false staleState).state.errorCode.type = "invalid-form" ∧
      (handleSubmit "invalid-form" [] false staleState).state.errorCode.count
        = staleState.errorCode.count + 1 ∧
      loginRequests (handleSubmit "invalid-form" [] false staleState).calls = [] :=
  ⟨Or.inr (by decide), ⟨by decide, by decide⟩,
    (show staleState.formFields.password ≠ "" by decide),
    stored_error_blocks_submit "invalid-form" [] false staleState (Or.inr (by decide))⟩

/-! ## Render -/

theorem find?_of_filter_eq_singleton {α : Type} (f : α → Bool) (l : List α) (a : α)
    (h : l.filter f = [a]) : l.find? f = some a := by
  induction l with
  | nil => simp at h
  | cons x xs ih =>
    by_cases hx : f x = true
    · rw [List.filter_cons_of_pos hx] at h
      rw [List.find?_cons_of_pos _ hx]
      exact congrArg some (List.cons.inj h).1
    · rw [List.filter_cons_of_neg hx] at h
      rw [List.find?_cons_of_neg _ hx]
      exact ih h

theorem getTpaProvider_of_single_match (tpaHint : Option String)
    (providers secondaryProviders : List Provider) (p : Provider)
    (hmatch : providers.filter (fun q => some q.id == tpaHint) = [p])
    (hsec : secondaryProviders = []) :
    getTpaProvider tpaHint providers secondaryProviders =
      { provider := some p, skipHintedLogin := true } := by
  unfold getTpaProvider
  simp only [hsec, List.append_nil, hmatch, find?_of_filter_eq_singleton _ _ _ hmatch]
  rfl

theorem render_of_no_hint_branch
    (getTpa : Option String → List Provider → List Provider → TpaProvider)
    (PENDING_STATE LMS_BASE_URL : String) (props : Props) (st : State)
    (hno : truthyOpt props.tpaHint = false ∨
      (props.thirdPartyAuthApiStatus ≠ PENDING_STATE ∧
        (getTpa props.tpaHint props.providers props.secondaryProviders).skipHintedLogin = false ∧
        (getTpa props.tpaHint props.providers props.secondaryProviders).provider = none)) :
    render getTpa PENDING_STATE LMS_BASE_URL props st = some (renderUnhinted props st) := by
  unfold render
  by_cases hh : truthyOpt props.tpaHint = true
  · rcases hno with hno | ⟨hst, hskip, hprov⟩
    · rw [hno] at hh; exact absurd hh (by decide)
    · have hb : (props.thirdPartyAuthApiStatus == PENDING_STATE) = false := by simpa using hst
      simp only [hh, hb, hskip, hprov, if_true, Bool.false_eq_true, if_false]
  · have hf : truthyOpt props.tpaHint = false := by simpa using hh
    simp only [hf, Bool.false_eq_true, if_false]

/-- C7, counterexample: with a hint naming the only provider and no secondary
provider, a render during the fetch of the context returns the skeleton and
assigns nothing to `window.location.href`. -/
theorem hinted_redirect_counterexample :
    truthyOpt (hintedProps "pending").tpaHint = true ∧
      (hintedProps "pending").providers.filter
          (fun q => some q.id == (hintedProps "pending").tpaHint) = [campusProvider] ∧
      (hintedProps "pending").secondaryProviders = [] ∧
      ∃ r, render getTpaProvider "pending" "https://lms.example.com" (hintedProps "pending")
            emptyState = some r ∧
        r.locationHref = none ∧ r.element = Element.skeleton 36 :=
  ⟨by decide, by decide, by decide,
    { element := Element.skeleton 36, locationHref := none }, rfl, rfl, rfl⟩

/-- C7, amended: when the SSO hint is present (a non-empty string), names
exactly one provider, there is no secondary provider and the fetch of the
context is not pending, the render assigns `LMS_BASE_URL` followed by that
provider's `loginUrl` to `window.location.href` and returns `null`, so the
credential form is not rendered. -/
theorem hinted_redirect (PENDING_STATE LMS_BASE_URL : String) (props : Props) (st : State)
    (p : Provider)
    (hhint : truthyOpt props.tpaHint = true)
    (hmatch : props.providers.filter (fun q => some q.id == props.tpaHint) = [p])
    (hsec : props.secondaryProviders = [])
    (hstatus : props.thirdPartyAuthApiStatus ≠ PENDING_STATE) :
    render getTpaProvider PENDING_STATE LMS_BASE_URL props st =
      some { element := Element.null, locationHref := some (LMS_BASE_URL ++ p.loginUrl) } := by
  have hb : (props.thirdPartyAuthApiStatus == PENDING_STATE) = false := by simpa using hstatus
  unfold render
  simp only [getTpaProvider_of_single_match _ _ _ p hmatch hsec, hhint, hb, if_true,
    Bool.false_eq_true, if_false]

theorem hinted_redirect_witness :
    truthyOpt (hintedProps "complete").tpaHint = true ∧
      (hintedProps "complete").providers.filter
          (fun q => some q.id == (hintedProps "complete").tpaHint) = [campusProvider] ∧
      (hintedProps "complete").secondaryProviders = [] ∧
      (hintedProps "complete").thirdPartyAuthApiStatus ≠ "pending" ∧
      render getTpaProvider "pending" "https://lms.example.com" (hintedProps "complete")
          emptyState =
        some { element := Element.null
               locationHref := some ("https://lms.example.com" ++ campusProvider.loginUrl) } :=
  ⟨by decide, by decide, by decide, by decide,
    hinted_redirect "pending" "https://lms.example.com" (hintedProps "complete") emptyState
      campusProvider (by decide) (by decide) (by decide) (by decide)⟩

/-- C8, counterexample: with `institutionLogin` set, a hint present and the
fetch of the context pending, the render returns the skeleton, not the
institution picker. -/
theorem institution_login_counterexample :
    institutionPendingProps.institutionLogin = true ∧
      ∃ r, render getTpaProvider "pending" "https://lms.example.com" institutionPendingProps
            emptyState = some r ∧
        r.element = Element.skeleton 36 ∧
        r.element ≠ Element.institutionLogistration institutionPendingProps.secondaryProviders :=
  ⟨rfl, { element := Element.skeleton 36, locationHref := none }, rfl, rfl,
    fun h => by cases h⟩

/-- C8, amended: when `institutionLogin` is true and no SSO-hint branch returns
first (the hint is absent or empty, or the fetch is not pending and
`getTpaProvider` gives no provider and no `skipHintedLogin`), the render result
is the institution picker given `secondaryProviders`, not the credential
form. -/
theorem institution_login_renders_picker
    (getTpa : Option String → List Provider → List Provider → TpaProvider)
    (PENDING_STATE LMS_BASE_URL : String) (props : Props) (st : State)
    (hinst : props.institutionLogin = true)
    (hno : truthyOpt props.tpaHint = false ∨
      (props.thirdPartyAuthApiStatus ≠ PENDING_STATE ∧
        (getTpa props.tpaHint props.providers props.secondaryProviders).skipHintedLogin = false ∧
        (getTpa props.tpaHint props.providers props.secondaryProviders).provider = none)) :
    ∃ r, render getTpa PENDING_STATE LMS_BASE_URL props st = some r ∧
      r.element = Element.institutionLogistration props.secondaryProviders ∧
      r.locationHref = none ∧
      ∀ page, r.element ≠ Element.credentialPage page := by
  refine ⟨_, render_of_no_hint_branch getTpa PENDING_STATE LMS_BASE_URL props st hno, ?_⟩
  unfold renderUnhinted
  simp only [hinst, if_true]
  exact ⟨trivial, trivial, fun page h => by cases h⟩

theorem institution_login_renders_picker_witness :
    institutionProps.institutionLogin = true ∧
      ∃ r, render getTpaProvider "pending" "https://lms.example.com" institutionProps
            emptyState = some r ∧
        r.element = Element.institutionLogistration institutionProps.secondaryProviders ∧
        r.locationHref = none ∧
        ∀ page, r.element ≠ Element.credentialPage page :=
  ⟨rfl,
    institution_login_renders_picker getTpaProvider "pending" "https://lms.example.com"
      institutionProps emptyState rfl (Or.inl rfl)⟩

/-- C9, counterexample: with a successful `loginResult` carrying a
`redirectUrl` and `institutionLogin` set, the render returns the institution
picker, which has no `RedirectLogistration` element. -/
theorem login_success_redirect_counterexample :
    (loggedInProps true).loginResult.success = some true ∧
      (loggedInProps true).loginResult.redirectUrl = some "/dashboard" ∧
      ∃ r, render getTpaProvider "pending" "https://lms.example.com" (loggedInProps true)
            emptyState = some r ∧
        r.element = Element.institutionLogistration [] ∧
        r.element.redirectLogistration = none :=
  ⟨rfl, rfl, { element := Element.institutionLogistration [], locationHref := none },
    rfl, rfl, rfl⟩

/-- C9, amended: when `loginResult` reports `success = true` with a
`redirectUrl`, `institutionLogin` is false and no SSO-hint branch returns first
(the hint is absent or empty, or the fetch is not pending and `getTpaProvider`
gives no provider and no `skipHintedLogin`), the render output includes
`RedirectLogistration` with `success = true`, that `redirectUrl` and the
context's `finishAuthUrl`. -/
theorem login_success_redirect
    (getTpa : Option String → List Provider → List Provider → TpaProvider)
    (PENDING_STATE LMS_BASE_URL : String) (props : Props) (st : State) (url : String)
    (hsuccess : props.loginResult.success = some true)
    (hurl : props.loginResult.redirectUrl = some url)
    (hinst : props.institutionLogin = false)
    (hno : truthyOpt props.tpaHint = false ∨
      (props.thirdPartyAuthApiStatus ≠ PENDING_STATE ∧
        (getTpa props.tpaHint props.providers props.secondaryProviders).skipHintedLogin = false ∧
        (getTpa props.tpaHint props.providers props.secondaryProviders).provider = none)) :
    ∃ r, render getTpa PENDING_STATE LMS_BASE_URL props st = some r ∧
      r.element.redirectLogistration =
        some { success := some true, redirectUrl := some url,
               finishAuthUrl := props.finishAuthUrl } := by
  refine ⟨_, render_of_no_hint_branch getTpa PENDING_STATE LMS_BASE_URL props st hno, ?_⟩
  unfold renderUnhinted
  simp only [hinst, Bool.false_eq_true, if_false, Element.redirectLogistration, hsuccess, hurl]

theorem login_success_redirect_witness :
    (loggedInProps false).loginResult.success = some true ∧
      (loggedInProps false).loginResult.redirectUrl = some "/dashboard" ∧
      (loggedInProps false).institutionLogin = false ∧
      ∃ r, render getTpaProvider "pending" "https://lms.example.com" (loggedInProps false)
            emptyState = some r ∧
        r.element.redirectLogistration =
          some { success := some true, redirectUrl := some "/dashboard",
                 finishAuthUrl := (loggedInProps false).finishAuthUrl } :=
  ⟨rfl, rfl, rfl,
    login_success_redirect getTpaProvider "pending" "https://lms.example.com"
      (loggedInProps false) emptyState "/dashboard" rfl rfl rfl (Or.inl rfl)⟩

end LoginPage
